import Mathlib

/-!
Verification of the enrollment-management core of the
courses-students-manager repository, shallowly embedded in Lean 4.

Conventions of the embedding:
* Python floats carrying grades, attendance percentages and the CR
  metric are modelled as rationals.
* Clock times "HH:MM" are modelled as minutes after midnight; the
  parsing step of the source is injective and monotone, so interval
  comparisons are unchanged.
* Methods that mutate objects become pure functions returning the
  updated value; methods that can raise return `Except Erro`.
* The SQLite store behind the service layer is modelled as explicit
  record fields holding the same rows the SQL queries read.
-/

/-- Enrollment status tokens, from `src/models/matricula.py` lines 13-18. -/
inductive Situacao where
  | cursando
  | aprovado
  | reprovadoNota
  | reprovadoFrequencia
  | trancada
  | desistente
deriving DecidableEq, Repr

/-- The typed errors the embedded operations can signal.  Each constructor
stands for one of the `ValueError` messages raised in the source, except
`chaveTurmaPeriodoAusente`, which stands for the untyped
`KeyError('turma_periodo')` escaping `MatriculaService.validar_matricula`
(the dictionaries it iterates carry the key `periodo`, not
`turma_periodo`); `jaMatriculadoNoCurso` is the message of that
method's dead same-course branch, kept to state that the program never
produces it. -/
inductive Erro where
  | alunoNaoEncontrado
  | turmaNaoEncontrada
  | jaMatriculadoNaTurma
  | turmaNaoAberta
  | turmaSemVagas
  | prerequisitosNaoAtendidos (faltantes : List String)
  | choqueDeHorario (dia : String)
  | jaMatriculadoNoCurso (curso : String) (periodo : String)
  | limiteDeTurmasAtingido
  | chaveTurmaPeriodoAusente
  | notaForaDosLimites
  | frequenciaForaDosLimites
  | cargaHorariaInvalida
  | cursoJaNoHistorico (curso : String)
  | matriculaNaoAtiva
  | matriculaNula
  | cursoNaoEncontrado (curso : String)
  | prerequisitoDeSiProprio
  | prerequisitoDuplicado
  | cicloDeDependencia
deriving DecidableEq, Repr

/-- Institutional configuration, from `src/config/settings.py`: minimum
passing grade, minimum attendance and the per-period enrollment cap
(`0` meaning unlimited). -/
structure Config where
  notaMinimaAprovacao : ℚ
  frequenciaMinima : ℚ
  maxTurmasPorAluno : ℤ
deriving DecidableEq, Repr

/-- The configuration shipped as `default_config` in `settings.py`. -/
def configPadrao : Config :=
  { notaMinimaAprovacao := 6, frequenciaMinima := 75, maxTurmasPorAluno := 6 }

/-- Python `round(x, 2)` (banker's rounding at two decimal places),
used by `Aluno.calcular_cr`. -/
def round2 (q : ℚ) : ℚ :=
  let cem : ℚ := q * 100
  let f : ℤ := ⌊cem⌋
  let resto : ℚ := cem - f
  let n : ℤ :=
    if resto < 1 / 2 then f
    else if 1 / 2 < resto then f + 1
    else if f % 2 = 0 then f else f + 1
  (n : ℚ) / 100

/-- One completed-course entry of a student's history, the dictionary
built by `Aluno.adicionar_ao_historico` (`src/models/aluno.py` lines
136-144, the timestamp field omitted). -/
structure Registro where
  codigoCurso : String
  nota : ℚ
  frequencia : ℚ
  cargaHoraria : ℤ
  situacao : Situacao
  semestre : Option String
deriving DecidableEq, Repr

/-- A student record, from `src/models/aluno.py`. -/
structure Aluno where
  matricula : String
  nome : String
  historico : List Registro
  cr : ℚ
deriving DecidableEq, Repr

/-- `Aluno.calcular_cr` (`src/models/aluno.py` lines 68-97): weighted mean
of grade by credit hours over entries whose status is APROVADO or
REPROVADO_POR_NOTA and whose credit hours are positive, rounded to two
places, and `0.0` for an empty history or a zero accumulated weight. -/
def calcularCr (historico : List Registro) : ℚ :=
  if historico.isEmpty then 0
  else
    let acc := historico.foldl
      (fun (p : ℚ × ℤ) r =>
        if r.situacao = .aprovado ∨ r.situacao = .reprovadoNota then
          if 0 < r.cargaHoraria then
            (p.1 + r.nota * (r.cargaHoraria : ℚ), p.2 + r.cargaHoraria)
          else p
        else p)
      ((0 : ℚ), (0 : ℤ))
    if 0 < acc.2 then round2 (acc.1 / (acc.2 : ℚ)) else 0

/-- `Aluno.adicionar_ao_historico` (`src/models/aluno.py` lines 99-148):
validates the grade, attendance and credit-hour ranges, rejects a course
code already present in the history (whatever its period), then appends
the entry and recomputes the CR.  The status argument is already one of
the six valid tokens by typing. -/
def adicionarAoHistorico (a : Aluno) (codigoCurso : String) (nota frequencia : ℚ)
    (cargaHoraria : ℤ) (situacao : Situacao) (semestre : Option String) :
    Except Erro Aluno :=
  if ¬ (0 ≤ nota ∧ nota ≤ 10) then .error .notaForaDosLimites
  else if ¬ (0 ≤ frequencia ∧ frequencia ≤ 100) then .error .frequenciaForaDosLimites
  else if cargaHoraria ≤ 0 then .error .cargaHorariaInvalida
  else if a.historico.any (fun r => r.codigoCurso == codigoCurso) then
    .error (.cursoJaNoHistorico codigoCurso)
  else
    let registro : Registro :=
      { codigoCurso := codigoCurso, nota := nota, frequencia := frequencia,
        cargaHoraria := cargaHoraria, situacao := situacao, semestre := semestre }
    let h := a.historico ++ [registro]
    .ok { a with historico := h, cr := calcularCr h }

/-- `Aluno.get_cursos_aprovados` (`src/models/aluno.py` lines 244-252). -/
def getCursosAprovados (a : Aluno) : List String :=
  (a.historico.filter (fun r => r.situacao == .aprovado)).map (fun r => r.codigoCurso)

/-- A half-open-compared time interval, in minutes after midnight; the
parsed form of the "HH:MM-HH:MM" strings of the source. -/
structure Intervalo where
  inicio : ℕ
  fim : ℕ
deriving DecidableEq, Repr

/-- A weekday-to-interval slot map, the parsed form of the
`{dia: "HH:MM-HH:MM"}` dictionaries of `src/models/oferta.py`. -/
abbrev Horarios : Type := List (String × Intervalo)

/-- Dictionary lookup on a slot map (first matching key). -/
def lookupHorario (h : Horarios) (dia : String) : Option Intervalo :=
  (List.find? (fun p => p.1 == dia) h).map (fun p => p.2)

/-- `MatriculaService._verificar_choque_horario`
(`src/services/matricula_service.py` lines 201-222): two intervals clash
iff not (end one before-or-at start of the other, either way round). -/
def verificarChoqueHorario (i1 i2 : Intervalo) : Bool :=
  ! (i1.fim ≤ i2.inicio || i2.fim ≤ i1.inicio)

/-- `Oferta.verificar_choque` (`src/models/oferta.py` lines 166-185): scan
the external slot map; on each weekday also present in the section's own
map, compare the two intervals and report a clash on the first overlap. -/
def verificarChoque (proprios : Horarios) (externos : Horarios) : Bool :=
  externos.any (fun p =>
    match lookupHorario proprios p.1.toLower with
    | some atual => ! (atual.fim ≤ p.2.inicio || p.2.fim ≤ atual.inicio)
    | none => false)

/-- The course data attached to a loaded section: code, credit hours and
direct prerequisite codes (`src/models/curso.py`). -/
structure CursoInfo where
  codigo : String
  cargaHoraria : ℤ
  prerequisitos : List String
deriving DecidableEq, Repr

/-- `Curso.get_prerequisitos_faltantes` (`src/models/curso.py` lines
167-177): direct prerequisites not contained in the completed list. -/
def getPrerequisitosFaltantes (c : CursoInfo) (concluidos : List String) : List String :=
  c.prerequisitos.filter (fun p => ! concluidos.contains p)

/-- An enrollment as seen by a section roster; equality mirrors
`Matricula.__eq__` comparing the student and the section. -/
structure MatriculaT where
  alunoMatricula : String
  turmaId : String
  situacao : Situacao
deriving DecidableEq, Repr

/-- A section ("turma"), from `src/models/turma.py`: identity, period,
slot map, seat capacity, owning course, open/closed flag and the
in-memory enrollment roster. -/
structure Turma where
  id : String
  periodo : String
  horarios : Horarios
  vagas : ℤ
  curso : CursoInfo
  status : Bool
  matriculas : List MatriculaT
deriving DecidableEq, Repr

/-- `Turma.vagas_ocupadas` (`src/models/turma.py` lines 140-149): the
source returns `len(self._matriculas)`, counting every enrollment of the
roster whatever its status. -/
def vagasOcupadas (t : Turma) : ℤ :=
  (t.matriculas.length : ℤ)

/-- `Turma.vagas_disponiveis` (`src/models/turma.py` lines 151-158). -/
def vagasDisponiveis (t : Turma) : ℤ :=
  max 0 (t.vagas - vagasOcupadas t)

/-- `Turma.esta_aberta_para_matricula` (`src/models/turma.py` lines
160-167): only the status flag is consulted. -/
def estaAbertaParaMatricula (t : Turma) : Bool :=
  t.status

/-- `Turma.atualizar_status_vagas` (`src/models/turma.py` lines 97-105). -/
def atualizarStatusVagas (t : Turma) : Turma :=
  if t.vagas ≤ vagasOcupadas t then { t with status := false }
  else { t with status := true }

/-- `Turma.adicionar_matricula` (`src/models/turma.py` lines 107-122): a
falsy (None) argument raises; otherwise the enrollment is appended with
no capacity or duplicate check, the status is recomputed and `True` is
returned. -/
def adicionarMatricula (t : Turma) (m : Option MatriculaT) : Except Erro (Turma × Bool) :=
  match m with
  | none => .error .matriculaNula
  | some m =>
    let t1 := { t with matriculas := t.matriculas ++ [m] }
    .ok (atualizarStatusVagas t1, true)

/-- `Turma.remover_matricula` (`src/models/turma.py` lines 124-138). -/
def removerMatricula (t : Turma) (m : MatriculaT) : Turma × Bool :=
  if t.matriculas.contains m then
    (atualizarStatusVagas { t with matriculas := t.matriculas.erase m }, true)
  else (t, false)

/-- The course/prerequisite store behind `CursoRepository`: the set of
stored course codes and the list of `(curso, prerequisito)` edges of the
`prerequisito` table. -/
structure CatalogoState where
  cursos : List String
  arestas : List (String × String)
deriving DecidableEq, Repr

/-- `CursoService.obter_prerequisitos` backed by the repository: the
direct prerequisite codes stored for a course. -/
def obterPrerequisitos (st : CatalogoState) (codigo : String) : List String :=
  (st.arestas.filter (fun p => p.1 == codigo)).map (fun p => p.2)

/-- `CursoService._verificar_ciclo_prerequisitos`
(`src/services/curso_service.py` lines 199-219): the source fetches only
the DIRECT prerequisites of the incoming prerequisite and tests whether
the target course is among them. -/
def verificarCicloPrerequisitos (st : CatalogoState) (cursoCodigo novoPrerequisito : String) :
    Bool :=
  (obterPrerequisitos st novoPrerequisito).contains cursoCodigo

/-- `CursoService.adicionar_prerequisito` (`src/services/curso_service.py`
lines 153-197).  `buscar_curso` there is called without
`incluir_prerequisitos`, so the already-is-prerequisite test inspects a
freshly built object whose prerequisite list is empty; we keep that
faithfully by testing membership in the empty list. -/
def adicionarPrerequisito (st : CatalogoState) (cursoCodigo prerequisitoCodigo : String) :
    Except Erro CatalogoState :=
  if ¬ st.cursos.contains cursoCodigo then .error (.cursoNaoEncontrado cursoCodigo)
  else if ¬ st.cursos.contains prerequisitoCodigo then
    .error (.cursoNaoEncontrado prerequisitoCodigo)
  else if cursoCodigo == prerequisitoCodigo then .error .prerequisitoDeSiProprio
  else if ([] : List String).contains prerequisitoCodigo then .error .prerequisitoDuplicado
  else if verificarCicloPrerequisitos st cursoCodigo prerequisitoCodigo then
    .error .cicloDeDependencia
  else
    .ok { st with arestas := st.arestas ++ [(cursoCodigo, prerequisitoCodigo)] }

/-- Modelled from the spec: `course` is transitively reachable from
`prereq` along existing prerequisite edges, by depth-first traversal
(fuel-bounded; `st.arestas.length + 1` steps suffice for any path). -/
def alcancavelTransitivamente (st : CatalogoState) : ℕ → String → String → Bool
  | 0, _, _ => false
  | fuel + 1, origem, alvo =>
    (obterPrerequisitos st origem).any
      (fun p => p == alvo || alcancavelTransitivamente st fuel p alvo)

/-- The in-memory state of one `Matricula` object
(`src/models/matricula.py`): grade and attendance are nullable until
recorded; `ativa` caches whether the status still is CURSANDO. -/
structure MatriculaObj where
  nota : Option ℚ
  frequencia : Option ℚ
  situacao : Situacao
  ativa : Bool
deriving DecidableEq, Repr

/-- The context a `Matricula` carries for writing back into the student
history: the owning section's course code and credit hours and the
section's period. -/
structure ContextoMatricula where
  cursoCodigo : String
  cargaHoraria : ℤ
  periodo : String
deriving DecidableEq, Repr

/-- `Matricula._atualizar_situacao` (`src/models/matricula.py` lines
151-173) together with `_registrar_no_historico_do_aluno` (lines
175-189): with either value missing the status returns to CURSANDO;
with both set the attendance threshold is tested first, then the grade
threshold, the enrollment becomes inactive and the outcome is pushed
into the student history (which can itself raise, after the enrollment
fields were already updated, hence the pair with an `Except` student). -/
def atualizarSituacao (cfg : Config) (ctx : ContextoMatricula) (m : MatriculaObj)
    (al : Aluno) : MatriculaObj × Except Erro Aluno :=
  match m.nota, m.frequencia with
  | some n, some f =>
    let sit : Situacao :=
      if f < cfg.frequenciaMinima then .reprovadoFrequencia
      else if n < cfg.notaMinimaAprovacao then .reprovadoNota
      else .aprovado
    ({ m with situacao := sit, ativa := false },
     adicionarAoHistorico al ctx.cursoCodigo n f ctx.cargaHoraria sit (some ctx.periodo))
  | _, _ => ({ m with situacao := .cursando, ativa := true }, .ok al)

/-- The `nota` property setter (`src/models/matricula.py` lines 96-102):
range check, assignment, then automatic status update. -/
def setNota (cfg : Config) (ctx : ContextoMatricula) (m : MatriculaObj) (al : Aluno)
    (valor : ℚ) : Except Erro (MatriculaObj × Aluno) :=
  if ¬ (0 ≤ valor ∧ valor ≤ 10) then .error .notaForaDosLimites
  else
    let r := atualizarSituacao cfg ctx { m with nota := some valor } al
    r.2.map (fun al2 => (r.1, al2))

/-- The `frequencia` property setter (`src/models/matricula.py` lines
109-115). -/
def setFrequencia (cfg : Config) (ctx : ContextoMatricula) (m : MatriculaObj) (al : Aluno)
    (valor : ℚ) : Except Erro (MatriculaObj × Aluno) :=
  if ¬ (0 ≤ valor ∧ valor ≤ 100) then .error .frequenciaForaDosLimites
  else
    let r := atualizarSituacao cfg ctx { m with frequencia := some valor } al
    r.2.map (fun al2 => (r.1, al2))

/-- `Matricula.lancar_avaliacao` (`src/models/matricula.py` lines
137-149): assign the grade through its setter, then the attendance
through its setter. -/
def lancarAvaliacao (cfg : Config) (ctx : ContextoMatricula) (m : MatriculaObj) (al : Aluno)
    (nota frequencia : ℚ) : Except Erro (MatriculaObj × Aluno) := do
  let (m1, al1) ← setNota cfg ctx m al nota
  setFrequencia cfg ctx m1 al1 frequencia

/-- One row of the `matricula` table as far as grading is concerned. -/
structure MatRowNota where
  nota : Option ℚ
  frequencia : Option ℚ
  situacao : Situacao
deriving DecidableEq, Repr

/-- `MatriculaService.buscar_matricula` reconstructs the in-memory object
from the stored row; `_ativa` is set iff the stored status is CURSANDO
(`src/models/matricula.py` line 51). -/
def matriculaDeRow (row : MatRowNota) : MatriculaObj :=
  { nota := row.nota, frequencia := row.frequencia, situacao := row.situacao,
    ativa := row.situacao == .cursando }

/-- The situation written by
`MatriculaRepository.atualizar_nota_frequencia`
(`src/repositories/matricula_repository.py` lines 404-419): attendance
threshold first, then grade threshold. -/
def derivarSituacaoRepo (cfg : Config) (nota frequencia : ℚ) : Situacao :=
  if frequencia < cfg.frequenciaMinima then .reprovadoFrequencia
  else if nota < cfg.notaMinimaAprovacao then .reprovadoNota
  else .aprovado

/-- The state touched by `MatriculaService.lancar_nota_frequencia`: the
stored enrollment row, the loaded student record and the loaded context. -/
structure EstadoLancamento where
  row : MatRowNota
  aluno : Aluno
  ctx : ContextoMatricula
deriving DecidableEq, Repr

/-- `MatriculaService.lancar_nota_frequencia`
(`src/services/matricula_service.py` lines 327-366): validate the two
ranges, reconstruct the enrollment, refuse a non-active one, persist the
new values and derived status, then drive the in-memory setters (which
push the completion entry into the student record). -/
def lancarNotaFrequencia (cfg : Config) (e : EstadoLancamento) (nota frequencia : ℚ) :
    Except Erro EstadoLancamento :=
  if ¬ (0 ≤ nota ∧ nota ≤ 10) then .error .notaForaDosLimites
  else if ¬ (0 ≤ frequencia ∧ frequencia ≤ 100) then .error .frequenciaForaDosLimites
  else
    let m := matriculaDeRow e.row
    if ¬ m.ativa then .error .matriculaNaoAtiva
    else
      let row2 : MatRowNota :=
        { nota := some nota, frequencia := some frequencia,
          situacao := derivarSituacaoRepo cfg nota frequencia }
      (lancarAvaliacao cfg e.ctx m e.aluno nota frequencia).map
        (fun r => { e with row := row2, aluno := r.2 })

/-- One row of the `matricula` table as the admission pipeline reads it. -/
structure MatRow where
  id : ℕ
  alunoMatricula : String
  turmaId : String
  situacao : Situacao
deriving DecidableEq, Repr

/-- The statuses the repository SQL counts as occupying (the
`situacao IN ('CURSANDO','APROVADO','REPROVADO_POR_NOTA','REPROVADO_POR_FREQUENCIA')`
filter of `src/repositories/matricula_repository.py`). -/
def situacaoContada (s : Situacao) : Bool :=
  s == .cursando || s == .aprovado || s == .reprovadoNota || s == .reprovadoFrequencia

/-- The whole store the admission controller reads: students, sections
(with their loaded course), enrollment rows, and the configuration. -/
structure Sistema where
  alunos : List Aluno
  turmas : List Turma
  matriculas : List MatRow
  cfg : Config
deriving DecidableEq, Repr

/-- `AlunoService.buscar_aluno` as a store lookup. -/
def buscarAluno (s : Sistema) (matricula : String) : Option Aluno :=
  s.alunos.find? (fun a => a.matricula == matricula)

/-- `TurmaService.buscar_turma` (`src/services/turma_service.py` lines
55-117): the stored row supplies id, period, slot map, capacity and
course, but the `Turma` object is always constructed with the default
`status=True` (never passed), an empty `_matriculas` roster (never
populated), and a course fetched with `incluir_prerequisitos=False`,
whose prerequisite list therefore is empty. -/
def buscarTurma (s : Sistema) (id : String) : Option Turma :=
  (s.turmas.find? (fun t => t.id == id)).map
    (fun t =>
      { t with
        status := true
        matriculas := []
        curso := { t.curso with prerequisitos := [] } })

/-- `MatriculaRepository.existe_matricula`. -/
def existeMatricula (s : Sistema) (alunoMatricula turmaId : String) : Bool :=
  s.matriculas.any (fun r => r.alunoMatricula == alunoMatricula && r.turmaId == turmaId)

/-- `MatriculaRepository.count_matriculas_por_aluno` restricted to a
period: the SQL joins each row to its section and counts the rows in
the four occupying statuses. -/
def countMatriculasPorAluno (s : Sistema) (alunoMatricula periodo : String) : ℕ :=
  (s.matriculas.filter (fun r =>
    r.alunoMatricula == alunoMatricula && situacaoContada r.situacao &&
      (match buscarTurma s r.turmaId with
       | some t => t.periodo == periodo
       | none => false))).length

/-- `MatriculaRepository.get_horarios_do_aluno`: the slots of every
section the student occupies in the period.  The source groups the
day/interval rows into a dict of lists and then iterates all the
pairs again, so the flat list of pairs carries the same information. -/
def getHorariosDoAluno (s : Sistema) (alunoMatricula periodo : String) : Horarios :=
  (s.matriculas.filter (fun r =>
    r.alunoMatricula == alunoMatricula && situacaoContada r.situacao)).flatMap
    (fun r =>
      match buscarTurma s r.turmaId with
      | some t => if t.periodo == periodo then t.horarios else []
      | none => [])

/-- `MatriculaRepository.listar_matriculas_por_aluno`: every row of the
student joined with its section (rows whose section is gone are dropped
by the SQL join).  Note the keys of the dicts this query produces: its
SELECT aliases only `curso_codigo` and `curso_nome`; the period column
comes through as plain `periodo` — there is NO `turma_periodo` key,
unlike in `get_all` and `get_by_id`, which do alias
`t.periodo as turma_periodo`. -/
def listarMatriculasPorAluno (s : Sistema) (alunoMatricula : String) :
    List (MatRow × Turma) :=
  (s.matriculas.filter (fun r => r.alunoMatricula == alunoMatricula)).filterMap
    (fun r => (buscarTurma s r.turmaId).map (fun t => (r, t)))

/-- `MatriculaService.validar_matricula` (`src/services/matricula_service.py`
lines 120-199): student exists, section exists and is open, seats
available, prerequisites met, no schedule clash — in that order,
returning on the first violation.  Step 6 then iterates the rows of
`listar_matriculas_por_aluno` and, for each, evaluates
`matricula['turma_periodo']`; those dicts only carry the key `periodo`,
so the first iterated row raises an uncaught `KeyError('turma_periodo')`:
with any prior enrollment row the method crashes, and only with none at
all does it fall through to success.  The intended same-course
comparison and its `jaMatriculadoNoCurso` message are dead code. -/
def validarMatricula (s : Sistema) (alunoMatricula turmaId : String) : Except Erro Unit :=
  match buscarAluno s alunoMatricula with
  | none => .error .alunoNaoEncontrado
  | some aluno =>
    match buscarTurma s turmaId with
    | none => .error .turmaNaoEncontrada
    | some turma =>
      if ¬ estaAbertaParaMatricula turma then .error .turmaNaoAberta
      else if vagasDisponiveis turma ≤ 0 then .error .turmaSemVagas
      else
        let faltantes := getPrerequisitosFaltantes turma.curso (getCursosAprovados aluno)
        if ¬ faltantes.isEmpty then .error (.prerequisitosNaoAtendidos faltantes)
        else
          match (getHorariosDoAluno s alunoMatricula turma.periodo).find?
              (fun p =>
                match lookupHorario turma.horarios p.1 with
                | some i2 => verificarChoqueHorario p.2 i2
                | none => false) with
          | some p => .error (.choqueDeHorario p.1)
          | none =>
            match listarMatriculasPorAluno s alunoMatricula with
            | [] => .ok ()
            | _ :: _ => .error .chaveTurmaPeriodoAusente

/-- `MatriculaService.criar_matricula` (`src/services/matricula_service.py`
lines 39-118): student exists, section exists, not already enrolled in
this section, then the `validar_matricula` pipeline, then — only after
all of it — the per-period cap, and finally the insertion of a CURSANDO
row.  The uncaught `KeyError` of `validar_matricula` propagates out of
this method too, before the cap is ever examined. -/
def criarMatricula (s : Sistema) (alunoMatricula turmaId : String) : Except Erro Sistema :=
  match buscarAluno s alunoMatricula with
  | none => .error .alunoNaoEncontrado
  | some _ =>
    match buscarTurma s turmaId with
    | none => .error .turmaNaoEncontrada
    | some turma =>
      if existeMatricula s alunoMatricula turmaId then .error .jaMatriculadoNaTurma
      else
        match validarMatricula s alunoMatricula turmaId with
        | .error e => .error e
        | .ok _ =>
          if 0 < s.cfg.maxTurmasPorAluno ∧
              s.cfg.maxTurmasPorAluno ≤ (countMatriculasPorAluno s alunoMatricula turma.periodo : ℤ) then
            .error .limiteDeTurmasAtingido
          else
            .ok { s with matriculas := s.matriculas ++
              [{ id := s.matriculas.length + 1, alunoMatricula := alunoMatricula,
                 turmaId := turmaId, situacao := .cursando }] }

/-! ## Concrete fixtures used by counterexamples and witnesses -/

/-- A section whose roster holds one enrollment already in the terminal
APROVADO status (seat-count fixture). -/
def turmaComAprovado : Turma :=
  { id := "T", periodo := "P", horarios := [("seg", ⟨480, 600⟩)], vagas := 2,
    curso := { codigo := "C", cargaHoraria := 60, prerequisitos := [] },
    status := true,
    matriculas := [{ alunoMatricula := "A", turmaId := "T", situacao := .aprovado }] }

/-- A one-seat empty section (overbooking fixture). -/
def turmaUmaVaga : Turma :=
  { id := "T", periodo := "P", horarios := [("seg", ⟨480, 600⟩)], vagas := 1,
    curso := { codigo := "C", cargaHoraria := 60, prerequisitos := [] },
    status := true, matriculas := [] }

/-- First enrollment pushed into `turmaUmaVaga`. -/
def matriculaPrimeira : MatriculaT :=
  { alunoMatricula := "A1", turmaId := "T", situacao := .cursando }

/-- Second enrollment pushed into `turmaUmaVaga`. -/
def matriculaSegunda : MatriculaT :=
  { alunoMatricula := "A2", turmaId := "T", situacao := .cursando }

/-! ## C7 -/

/-- C7: the claim states `seats_taken()` counts only in-progress
enrollments, but `Turma.vagas_ocupadas` returns the length of the whole
roster: a roster holding a single APROVADO (terminal) enrollment and no
CURSANDO enrollment is counted as one occupied seat, not zero. -/
theorem c7_vagas_ocupadas_conta_terminais :
    vagasOcupadas turmaComAprovado = 1 ∧
    (turmaComAprovado.matriculas.filter (fun m => m.situacao == .cursando)).length = 0 :=
  ⟨rfl, rfl⟩

/-! ## C10 -/

/-- C10: `Turma.adicionar_matricula` rejects only a null argument; on any
actual enrollment it appends unconditionally — no capacity check, no
duplicate check — returns `True`, grows the roster by one, and when the
section was already at (or beyond) capacity the occupied count passes
the capacity. -/
theorem c10_adicionar_matricula_sempre_aceita (t : Turma) (m : MatriculaT) :
    adicionarMatricula t none = .error .matriculaNula ∧
    ∃ t2, adicionarMatricula t (some m) = .ok (t2, true) ∧
      t2.matriculas = t.matriculas ++ [m] ∧
      vagasOcupadas t2 = vagasOcupadas t + 1 ∧
      (t.vagas ≤ vagasOcupadas t → t.vagas < vagasOcupadas t2) := by
  refine ⟨rfl, atualizarStatusVagas { t with matriculas := t.matriculas ++ [m] }, rfl, ?_, ?_, ?_⟩
  · unfold atualizarStatusVagas
    split <;> rfl
  · have hm : (atualizarStatusVagas { t with matriculas := t.matriculas ++ [m] }).matriculas
        = t.matriculas ++ [m] := by
      unfold atualizarStatusVagas
      split <;> rfl
    simp [vagasOcupadas, hm]
  · intro hcap
    have hm : (atualizarStatusVagas { t with matriculas := t.matriculas ++ [m] }).matriculas
        = t.matriculas ++ [m] := by
      unfold atualizarStatusVagas
      split <;> rfl
    simp [vagasOcupadas, hm] at *
    omega

/-- C10 witness: a full one-seat section still accepts a second
enrollment and ends with two occupied seats against capacity one. -/
theorem c10_adicionar_matricula_sempre_aceita_witness :
    ∃ t2, adicionarMatricula (atualizarStatusVagas
        { turmaUmaVaga with matriculas := turmaUmaVaga.matriculas ++ [matriculaPrimeira] })
        (some matriculaSegunda) = .ok (t2, true) ∧
      (atualizarStatusVagas
        { turmaUmaVaga with matriculas := turmaUmaVaga.matriculas ++ [matriculaPrimeira] }).vagas
        < vagasOcupadas t2 := by
  obtain ⟨-, t2, hok, -, -, hexc⟩ :=
    c10_adicionar_matricula_sempre_aceita (atualizarStatusVagas
      { turmaUmaVaga with matriculas := turmaUmaVaga.matriculas ++ [matriculaPrimeira] })
      matriculaSegunda
  exact ⟨t2, hok, hexc (by decide)⟩

/-! ## C8 -/

/-- C8 counterexample: starting from the empty one-seat section, two
successive `adicionar_matricula` calls (a reachable sequence of
enrollment additions, no force-close involved) yield a state where
`seats_available() + seats_taken()` is `2` while the capacity is `1`. -/
theorem c8_soma_vagas_counterexample :
    ∃ t1 t2, adicionarMatricula turmaUmaVaga (some matriculaPrimeira) = .ok (t1, true) ∧
      adicionarMatricula t1 (some matriculaSegunda) = .ok (t2, true) ∧
      vagasDisponiveis t2 + vagasOcupadas t2 = 2 ∧ t2.vagas = 1 := by
  refine ⟨_, _, rfl, rfl, by decide, by decide⟩

/-- C8 (amended): the seat identity `seats_available() + seats_taken() ==
capacity` holds exactly in the states whose roster does not exceed the
capacity; roster-exceeding states are reachable because
`adicionar_matricula` never checks capacity. -/
theorem c8_soma_vagas (t : Turma) (h : vagasOcupadas t ≤ t.vagas) :
    vagasDisponiveis t + vagasOcupadas t = t.vagas := by
  have h0 : (0 : ℤ) ≤ vagasOcupadas t := by
    simp [vagasOcupadas]
  unfold vagasDisponiveis
  omega

/-- C8 witness: the identity at the empty one-seat section. -/
theorem c8_soma_vagas_witness :
    vagasDisponiveis turmaUmaVaga + vagasOcupadas turmaUmaVaga = turmaUmaVaga.vagas :=
  c8_soma_vagas turmaUmaVaga (by decide)

/-! ## C5 -/

/-- C5: with both grade and attendance set, the derived terminal status
tests attendance first — attendance under the institutional minimum
gives REPROVADO_POR_FREQUENCIA whatever the grade; with attendance at or
above the minimum, a grade under the minimum gives REPROVADO_POR_NOTA;
otherwise APROVADO. -/
theorem c5_situacao_frequencia_primeiro (cfg : Config) (ctx : ContextoMatricula)
    (m : MatriculaObj) (al : Aluno) (n f : ℚ)
    (hn : m.nota = some n) (hf : m.frequencia = some f) :
    (f < cfg.frequenciaMinima →
      ((atualizarSituacao cfg ctx m al).1).situacao = .reprovadoFrequencia) ∧
    (cfg.frequenciaMinima ≤ f → n < cfg.notaMinimaAprovacao →
      ((atualizarSituacao cfg ctx m al).1).situacao = .reprovadoNota) ∧
    (cfg.frequenciaMinima ≤ f → cfg.notaMinimaAprovacao ≤ n →
      ((atualizarSituacao cfg ctx m al).1).situacao = .aprovado) := by
  refine ⟨?_, ?_, ?_⟩
  · intro h1
    simp [atualizarSituacao, hn, hf, h1]
  · intro h1 h2
    simp [atualizarSituacao, hn, hf, not_lt.mpr h1, h2]
  · intro h1 h2
    simp [atualizarSituacao, hn, hf, not_lt.mpr h1, not_lt.mpr h2]

/-- C5 witness (spec Scenario D): grade 7.0 and attendance 60.0 against
minimums 6.0 / 75.0 end in REPROVADO_POR_FREQUENCIA although the grade
alone clears its minimum. -/
theorem c5_situacao_frequencia_primeiro_witness :
    ((atualizarSituacao configPadrao
        { cursoCodigo := "C", cargaHoraria := 60, periodo := "P" }
        { nota := some 7, frequencia := some 60, situacao := .cursando, ativa := true }
        { matricula := "A", nome := "A", historico := [], cr := 0 }).1).situacao
      = .reprovadoFrequencia ∧
    configPadrao.notaMinimaAprovacao ≤ 7 := by
  constructor
  · exact (c5_situacao_frequencia_primeiro configPadrao
      { cursoCodigo := "C", cargaHoraria := 60, periodo := "P" }
      { nota := some 7, frequencia := some 60, situacao := .cursando, ativa := true }
      { matricula := "A", nome := "A", historico := [], cr := 0 }
      7 60 rfl rfl).1 (by norm_num [configPadrao])
  · norm_num [configPadrao]

/-! ## C9 -/

/-- C9: schedule conflict is one predicate.  The section-level
`verificar_choque` over two slot maps equals the pointwise application,
on each shared weekday, of the admission pipeline's per-interval
`_verificar_choque_horario`; it reports a clash exactly when some
weekday of the external map is also present in the section's map with
intervals satisfying `not (end_a <= start_b or end_b <= start_a)`; and
two intervals sharing only an endpoint never conflict. -/
theorem c9_choque_um_predicado :
    (∀ pr ex : Horarios, verificarChoque pr ex =
      ex.any (fun p =>
        match lookupHorario pr p.1.toLower with
        | some atual => verificarChoqueHorario atual p.2
        | none => false)) ∧
    (∀ pr ex : Horarios, verificarChoque pr ex = true ↔
      ∃ dia ie atual, (dia, ie) ∈ ex ∧ lookupHorario pr dia.toLower = some atual ∧
        ¬ (atual.fim ≤ ie.inicio ∨ ie.fim ≤ atual.inicio)) ∧
    (∀ a b c : ℕ, verificarChoqueHorario ⟨a, b⟩ ⟨b, c⟩ = false ∧
      verificarChoqueHorario ⟨b, c⟩ ⟨a, b⟩ = false) := by
  refine ⟨fun pr ex => rfl, fun pr ex => ?_, fun a b c => ?_⟩
  · constructor
    · intro h
      rcases List.any_eq_true.mp h with ⟨⟨dia, ie⟩, hmem, hp⟩
      cases hl : lookupHorario pr dia.toLower with
      | none => rw [hl] at hp; simp at hp
      | some atual =>
        rw [hl] at hp
        refine ⟨dia, ie, atual, hmem, hl, ?_⟩
        simpa using hp
    · rintro ⟨dia, ie, atual, hmem, hl, hno⟩
      refine List.any_eq_true.mpr ⟨(dia, ie), hmem, ?_⟩
      rw [hl]
      simpa using hno
  · constructor <;> simp [verificarChoqueHorario]

/-! ## C1 -/

/-- The three-course catalog A, B, C with B prerequisite of C and A
prerequisite of B: a chain C -> B -> A of prerequisite edges. -/
def catalogoCadeia : CatalogoState :=
  { cursos := ["A", "B", "C"], arestas := [("B", "A"), ("C", "B")] }

/-- C1: the service-level cycle check reads only the DIRECT
prerequisites of the incoming prerequisite, so adding C as a
prerequisite of A — although A is transitively reachable from C along
the chain C -> B -> A — is accepted instead of failing with the cycle
error, and the stored graph ends with the cycle A -> C -> B -> A
(A becomes reachable from itself). -/
theorem c1_ciclo_transitivo_nao_detectado :
    adicionarPrerequisito catalogoCadeia "A" "C" =
      .ok { cursos := ["A", "B", "C"], arestas := [("B", "A"), ("C", "B"), ("A", "C")] } ∧
    alcancavelTransitivamente catalogoCadeia (catalogoCadeia.arestas.length + 1) "C" "A"
      = true ∧
    alcancavelTransitivamente
      { cursos := ["A", "B", "C"], arestas := [("B", "A"), ("C", "B"), ("A", "C")] }
      ({ cursos := ["A", "B", "C"],
         arestas := [("B", "A"), ("C", "B"), ("A", "C")] : CatalogoState }.arestas.length + 1)
      "A" "A" = true := by
  refine ⟨rfl, rfl, rfl⟩

/-! ## C6 -/

/-- A student whose history already holds course MAT for period 2024-1. -/
def alunoComMat : Aluno :=
  { matricula := "A", nome := "A",
    historico := [{ codigoCurso := "MAT", nota := 6, frequencia := 80, cargaHoraria := 60,
                    situacao := .aprovado, semestre := some "2024-1" }],
    cr := 6 }

/-- C6 counterexample: recording a fresh completion of MAT for the very
same period 2024-1 does NOT replace the existing entry — the call fails
with the duplicate-course error. -/
theorem c6_substituicao_counterexample :
    adicionarAoHistorico alunoComMat "MAT" 9 95 60 .aprovado (some "2024-1") =
      .error (.cursoJaNoHistorico "MAT") := by
  rfl

/-- C6 (amended): `adicionar_ao_historico` validates `0 <= grade <= 10`,
`0 <= attendance <= 100` and `credit_hours > 0` in that order; when an
entry with the same course id already exists — in any period, the period
is not consulted — the call fails with the duplicate-course error and
nothing is replaced; otherwise the entry is appended and the CR is
recomputed over the new history. -/
theorem c6_adicionar_ao_historico_valida (a : Aluno) (codigo : String)
    (nota frequencia : ℚ) (carga : ℤ) (sit : Situacao) (sem : Option String) :
    (¬ (0 ≤ nota ∧ nota ≤ 10) →
      adicionarAoHistorico a codigo nota frequencia carga sit sem =
        .error .notaForaDosLimites) ∧
    (0 ≤ nota ∧ nota ≤ 10 → ¬ (0 ≤ frequencia ∧ frequencia ≤ 100) →
      adicionarAoHistorico a codigo nota frequencia carga sit sem =
        .error .frequenciaForaDosLimites) ∧
    (0 ≤ nota ∧ nota ≤ 10 → 0 ≤ frequencia ∧ frequencia ≤ 100 → carga ≤ 0 →
      adicionarAoHistorico a codigo nota frequencia carga sit sem =
        .error .cargaHorariaInvalida) ∧
    (0 ≤ nota ∧ nota ≤ 10 → 0 ≤ frequencia ∧ frequencia ≤ 100 → 0 < carga →
      (∃ r ∈ a.historico, r.codigoCurso = codigo) →
      adicionarAoHistorico a codigo nota frequencia carga sit sem =
        .error (.cursoJaNoHistorico codigo)) ∧
    (0 ≤ nota ∧ nota ≤ 10 → 0 ≤ frequencia ∧ frequencia ≤ 100 → 0 < carga →
      (∀ r ∈ a.historico, r.codigoCurso ≠ codigo) →
      adicionarAoHistorico a codigo nota frequencia carga sit sem =
        .ok { a with
          historico := a.historico ++
            [{ codigoCurso := codigo, nota := nota, frequencia := frequencia,
               cargaHoraria := carga, situacao := sit, semestre := sem }],
          cr := calcularCr (a.historico ++
            [{ codigoCurso := codigo, nota := nota, frequencia := frequencia,
               cargaHoraria := carga, situacao := sit, semestre := sem }]) }) := by
  refine ⟨?_, ?_, ?_, ?_, ?_⟩
  · intro h1
    simp [adicionarAoHistorico, h1]
  · intro h1 h2
    simp [adicionarAoHistorico, h1, h2]
  · intro h1 h2 h3
    simp [adicionarAoHistorico, h1, h2, h3]
  · intro h1 h2 h3 hdup
    have hany : a.historico.any (fun r => r.codigoCurso == codigo) = true := by
      rcases hdup with ⟨r, hr, he⟩
      exact List.any_eq_true.mpr ⟨r, hr, by simpa using he⟩
    simp [adicionarAoHistorico, h1, h2, not_le.mpr h3, hany]
  · intro h1 h2 h3 hfresh
    have hany : a.historico.any (fun r => r.codigoCurso == codigo) = false := by
      rw [List.any_eq_false]
      intro r hr
      simpa using hfresh r hr
    simp [adicionarAoHistorico, h1, h2, not_le.mpr h3, hany]

/-- C6 witness: appending a completion of a course absent from the
history succeeds and recomputes the CR. -/
theorem c6_adicionar_ao_historico_valida_witness :
    adicionarAoHistorico alunoComMat "FIS" 8 90 30 .aprovado (some "2024-2") =
      .ok { alunoComMat with
        historico := alunoComMat.historico ++
          [{ codigoCurso := "FIS", nota := 8, frequencia := 90, cargaHoraria := 30,
             situacao := .aprovado, semestre := some "2024-2" }],
        cr := calcularCr (alunoComMat.historico ++
          [{ codigoCurso := "FIS", nota := 8, frequencia := 90, cargaHoraria := 30,
             situacao := .aprovado, semestre := some "2024-2" }]) } := by
  exact (c6_adicionar_ao_historico_valida alunoComMat "FIS" 8 90 30 .aprovado
    (some "2024-2")).2.2.2.2 (by norm_num) (by norm_num) (by norm_num) (by decide)

/-! ## C4 -/

/-- Accumulator form of the `calcular_cr` loop: over a history whose
entries all carry positive credit hours, the fold accumulates exactly
the filtered weighted sum and the filtered weight. -/
theorem calcularCr_foldl_eq (h : List Registro) (hpos : ∀ r ∈ h, 0 < r.cargaHoraria)
    (s : ℚ) (t : ℤ) :
    h.foldl
      (fun (p : ℚ × ℤ) r =>
        if r.situacao = .aprovado ∨ r.situacao = .reprovadoNota then
          if 0 < r.cargaHoraria then
            (p.1 + r.nota * (r.cargaHoraria : ℚ), p.2 + r.cargaHoraria)
          else p
        else p)
      (s, t) =
    (s + ((h.filter (fun r => decide (r.situacao = .aprovado ∨ r.situacao = .reprovadoNota))).map
        (fun r => r.nota * (r.cargaHoraria : ℚ))).sum,
     t + ((h.filter (fun r => decide (r.situacao = .aprovado ∨ r.situacao = .reprovadoNota))).map
        (fun r => r.cargaHoraria)).sum) := by
  induction h generalizing s t with
  | nil => simp
  | cons r tl ih =>
    have hr : 0 < r.cargaHoraria := hpos r (List.mem_cons_self r tl)
    have htl : ∀ x ∈ tl, 0 < x.cargaHoraria := fun x hx => hpos x (List.mem_cons_of_mem r hx)
    by_cases hs : r.situacao = .aprovado ∨ r.situacao = .reprovadoNota
    · rw [List.foldl_cons, if_pos hs, if_pos hr, ih htl]
      simp [List.filter_cons, hs]
      constructor <;> ring
    · rw [List.foldl_cons, if_neg hs, ih htl]
      simp [List.filter_cons, hs]

/-- C4: over a history whose entries all carry positive credit hours
(the invariant `adicionar_ao_historico` enforces), the recomputed CR is
`round(sum(grade * credit_hours) / sum(credit_hours), 2)` taken over
exactly the APROVADO and REPROVADO_POR_NOTA entries, and `0.0` when that
credit-hour denominator is zero. -/
theorem c4_calcular_cr_formula (h : List Registro)
    (hpos : ∀ r ∈ h, 0 < r.cargaHoraria) :
    calcularCr h =
      (if ((h.filter (fun r => decide (r.situacao = .aprovado ∨ r.situacao = .reprovadoNota))).map
            (fun r => r.cargaHoraria)).sum = 0 then 0
       else round2
        ((((h.filter (fun r => decide (r.situacao = .aprovado ∨ r.situacao = .reprovadoNota))).map
            (fun r => r.nota * (r.cargaHoraria : ℚ))).sum) /
          ((((h.filter (fun r => decide (r.situacao = .aprovado ∨ r.situacao = .reprovadoNota))).map
            (fun r => r.cargaHoraria)).sum : ℤ) : ℚ))) := by
  by_cases hemp : h.isEmpty
  · rw [List.isEmpty_iff] at hemp
    subst hemp
    simp [calcularCr]
  · unfold calcularCr
    rw [if_neg hemp, calcularCr_foldl_eq h hpos 0 0]
    simp only [zero_add]
    have hden : 0 ≤ ((h.filter
        (fun r => decide (r.situacao = .aprovado ∨ r.situacao = .reprovadoNota))).map
        (fun r => r.cargaHoraria)).sum := by
      apply List.sum_nonneg
      intro x hx
      rcases List.mem_map.mp hx with ⟨r, hrmem, hrx⟩
      have hrh : r ∈ h := List.mem_of_mem_filter hrmem
      exact hrx ▸ (hpos r hrh).le
    rcases lt_or_eq_of_le hden with hpos2 | heq
    · rw [if_pos hpos2, if_neg hpos2.ne']
    · rw [if_neg (heq ▸ lt_irrefl 0), if_pos heq.symm]

/-- Three-entry example history: APROVADO and REPROVADO_POR_NOTA entries
count, the REPROVADO_POR_FREQUENCIA entry must not. -/
def historicoExemplo : List Registro :=
  [{ codigoCurso := "MAT", nota := 8, frequencia := 90, cargaHoraria := 60,
     situacao := .aprovado, semestre := some "S" },
   { codigoCurso := "FIS", nota := 4, frequencia := 85, cargaHoraria := 30,
     situacao := .reprovadoNota, semestre := some "S" },
   { codigoCurso := "QUI", nota := 9, frequencia := 50, cargaHoraria := 45,
     situacao := .reprovadoFrequencia, semestre := some "S" }]

/-- C4 witness: on the example history the formula gives
round((8*60 + 4*30) / 90, 2) = 6.67, the attendance failure excluded. -/
theorem c4_calcular_cr_formula_witness :
    (∀ r ∈ historicoExemplo, 0 < r.cargaHoraria) ∧
    calcularCr historicoExemplo = 667 / 100 := by
  refine ⟨by decide, ?_⟩
  rw [c4_calcular_cr_formula historicoExemplo (by decide)]
  have hf : ⌊(600 : ℚ) / 90 * 100⌋ = 666 := by
    rw [show ((600 : ℚ) / 90 * 100) = 2000 / 3 by norm_num]
    rw [Int.floor_eq_iff]
    norm_num
  simp only [historicoExemplo, List.filter, List.map, List.sum_cons, List.sum_nil]
  norm_num [round2, hf]

/-! ## C3 -/

/-- A fresh CURSANDO enrollment of student A in a 60-hour course C for
period P, nothing recorded yet. -/
def estadoFresco : EstadoLancamento :=
  { row := { nota := none, frequencia := none, situacao := .cursando },
    aluno := { matricula := "A", nome := "A", historico := [], cr := 0 },
    ctx := { cursoCodigo := "C", cargaHoraria := 60, periodo := "P" } }

/-- Helper: a first in-range outcome on a CURSANDO row with no recorded
attendance succeeds, stores the derived terminal status and appends the
completion entry. -/
theorem lancarNotaFrequencia_ok (cfg : Config) (rnota : Option ℚ) (al : Aluno)
    (ctx : ContextoMatricula) (nota frequencia : ℚ)
    (h1 : 0 ≤ nota) (h2 : nota ≤ 10) (h3 : 0 ≤ frequencia) (h4 : frequencia ≤ 100)
    (hcarga : 0 < ctx.cargaHoraria)
    (hany : al.historico.any (fun r => r.codigoCurso == ctx.cursoCodigo) = false) :
    lancarNotaFrequencia cfg
      { row := { nota := rnota, frequencia := none, situacao := .cursando },
        aluno := al, ctx := ctx } nota frequencia =
    .ok { row := { nota := some nota, frequencia := some frequencia,
                   situacao := derivarSituacaoRepo cfg nota frequencia },
          aluno := { al with
            historico := al.historico ++
              [{ codigoCurso := ctx.cursoCodigo, nota := nota, frequencia := frequencia,
                 cargaHoraria := ctx.cargaHoraria,
                 situacao := derivarSituacaoRepo cfg nota frequencia,
                 semestre := some ctx.periodo }],
            cr := calcularCr (al.historico ++
              [{ codigoCurso := ctx.cursoCodigo, nota := nota, frequencia := frequencia,
                 cargaHoraria := ctx.cargaHoraria,
                 situacao := derivarSituacaoRepo cfg nota frequencia,
                 semestre := some ctx.periodo }]) },
          ctx := ctx } := by
  have hnex : ¬ ∃ x ∈ al.historico, x.codigoCurso = ctx.cursoCodigo := by
    rw [List.any_eq_false] at hany
    rintro ⟨x, hx, he⟩
    exact absurd (by simpa using he) (by simpa using hany x hx)
  simp [lancarNotaFrequencia, matriculaDeRow, lancarAvaliacao, setNota, setFrequencia,
    atualizarSituacao, adicionarAoHistorico, derivarSituacaoRepo, Except.map,
    Except.instMonad, Bind.bind, Except.bind,
    h1, h2, h3, h4, not_lt.mpr h2, not_lt.mpr h4, not_le.mpr hcarga, hnex]

/-- Helper: on a row whose stored status is terminal, an in-range call
fails with the already-finalized error. -/
theorem lancarNotaFrequencia_terminal (cfg : Config) (row : MatRowNota) (al : Aluno)
    (ctx : ContextoMatricula) (n2 f2 : ℚ)
    (hterm : (row.situacao == Situacao.cursando) = false)
    (hn : 0 ≤ n2 ∧ n2 ≤ 10) (hf : 0 ≤ f2 ∧ f2 ≤ 100) :
    lancarNotaFrequencia cfg { row := row, aluno := al, ctx := ctx } n2 f2 =
      .error .matriculaNaoAtiva := by
  simp [lancarNotaFrequencia, matriculaDeRow, hterm, hn.1, hn.2, hf.1, hf.2]

/-- Helper: on a terminal row every call fails with some error. -/
theorem lancarNotaFrequencia_terminal_falha (cfg : Config) (row : MatRowNota) (al : Aluno)
    (ctx : ContextoMatricula) (n2 f2 : ℚ)
    (hterm : (row.situacao == Situacao.cursando) = false) :
    ∃ err, lancarNotaFrequencia cfg { row := row, aluno := al, ctx := ctx } n2 f2 =
      .error err := by
  by_cases hn : 0 ≤ n2 ∧ n2 ≤ 10
  · by_cases hf : 0 ≤ f2 ∧ f2 ≤ 100
    · exact ⟨.matriculaNaoAtiva, lancarNotaFrequencia_terminal cfg row al ctx n2 f2 hterm hn hf⟩
    · exact ⟨.frequenciaForaDosLimites, by simp [lancarNotaFrequencia, hn.1, hn.2, hf]⟩
  · exact ⟨.notaForaDosLimites, by simp [lancarNotaFrequencia, hn]⟩

/-- Helper: the repository-derived status never is CURSANDO. -/
theorem derivarSituacaoRepo_terminal (cfg : Config) (nota frequencia : ℚ) :
    (derivarSituacaoRepo cfg nota frequencia == Situacao.cursando) = false := by
  unfold derivarSituacaoRepo
  split_ifs <;> rfl

/-- C3 counterexample: after a successful first outcome (6.0, 80.0), a
second call with grade 11 fails with the range error, not with the
already-finalized error — the range validation runs first, so a second
call does NOT fail with an already-finalized error regardless of its
arguments, as the claim states. -/
theorem c3_segunda_chamada_counterexample :
    (do
      let e1 ← lancarNotaFrequencia configPadrao estadoFresco 6 80
      lancarNotaFrequencia configPadrao e1 11 90 : Except Erro EstadoLancamento)
      = .error .notaForaDosLimites ∧
    Erro.notaForaDosLimites ≠ Erro.matriculaNaoAtiva := by
  exact ⟨rfl, by decide⟩

/-- C3 (amended): recording an outcome succeeds at most once.  On a
CURSANDO enrollment with nothing recorded, a first in-range call
succeeds and drives the stored status terminal, and the student record
gets exactly one completion entry for the course, carrying the first
outcome; afterwards every second call fails — with the
already-finalized error when its arguments are in range, and with the
corresponding range error when they are not — and the failing call
changes neither the enrollment nor the record. -/
theorem c3_lancamento_unico (cfg : Config) (e : EstadoLancamento) (nota frequencia : ℚ)
    (hsit : e.row.situacao = .cursando) (hfreqrow : e.row.frequencia = none)
    (hnota : 0 ≤ nota ∧ nota ≤ 10) (hfreq : 0 ≤ frequencia ∧ frequencia ≤ 100)
    (hcarga : 0 < e.ctx.cargaHoraria)
    (hfresh : ∀ r ∈ e.aluno.historico, r.codigoCurso ≠ e.ctx.cursoCodigo) :
    ∃ e1, lancarNotaFrequencia cfg e nota frequencia = .ok e1 ∧
      e1.row.situacao ≠ .cursando ∧
      e1.aluno.historico.filter (fun r => r.codigoCurso == e.ctx.cursoCodigo) =
        [{ codigoCurso := e.ctx.cursoCodigo, nota := nota, frequencia := frequencia,
           cargaHoraria := e.ctx.cargaHoraria,
           situacao := derivarSituacaoRepo cfg nota frequencia,
           semestre := some e.ctx.periodo }] ∧
      (∀ n2 f2 : ℚ, 0 ≤ n2 ∧ n2 ≤ 10 → 0 ≤ f2 ∧ f2 ≤ 100 →
        lancarNotaFrequencia cfg e1 n2 f2 = .error .matriculaNaoAtiva) ∧
      (∀ n2 f2 : ℚ, ∃ err, lancarNotaFrequencia cfg e1 n2 f2 = .error err) := by
  have hany : e.aluno.historico.any
      (fun r => r.codigoCurso == e.ctx.cursoCodigo) = false := by
    rw [List.any_eq_false]
    intro r hr
    simpa using hfresh r hr
  obtain ⟨row, al, ctx⟩ := e
  obtain ⟨rnota, rfreq, rsit⟩ := row
  simp only at hsit hfreqrow hcarga hany hfresh
  subst hsit
  subst hfreqrow
  refine ⟨{ row := { nota := some nota, frequencia := some frequencia,
                     situacao := derivarSituacaoRepo cfg nota frequencia },
            aluno := { al with
              historico := al.historico ++
                [{ codigoCurso := ctx.cursoCodigo, nota := nota, frequencia := frequencia,
                   cargaHoraria := ctx.cargaHoraria,
                   situacao := derivarSituacaoRepo cfg nota frequencia,
                   semestre := some ctx.periodo }],
              cr := calcularCr (al.historico ++
                [{ codigoCurso := ctx.cursoCodigo, nota := nota, frequencia := frequencia,
                   cargaHoraria := ctx.cargaHoraria,
                   situacao := derivarSituacaoRepo cfg nota frequencia,
                   semestre := some ctx.periodo }]) },
            ctx := ctx }, ?_, ?_, ?_, ?_, ?_⟩
  · exact lancarNotaFrequencia_ok cfg rnota al ctx nota frequencia
      hnota.1 hnota.2 hfreq.1 hfreq.2 hcarga hany
  · intro hcontra
    have hb := derivarSituacaoRepo_terminal cfg nota frequencia
    simp only at hcontra
    rw [hcontra] at hb
    simp at hb
  · simp only [List.filter_append]
    have hnilf : al.historico.filter (fun r => r.codigoCurso == ctx.cursoCodigo) = [] := by
      rw [List.filter_eq_nil_iff]
      intro r hr
      simpa using hfresh r hr
    rw [hnilf]
    simp
  · intro n2 f2 hn hf
    exact lancarNotaFrequencia_terminal cfg
      { nota := some nota, frequencia := some frequencia,
        situacao := derivarSituacaoRepo cfg nota frequencia } _ ctx n2 f2
      (derivarSituacaoRepo_terminal cfg nota frequencia) hn hf
  · intro n2 f2
    exact lancarNotaFrequencia_terminal_falha cfg
      { nota := some nota, frequencia := some frequencia,
        situacao := derivarSituacaoRepo cfg nota frequencia } _ ctx n2 f2
      (derivarSituacaoRepo_terminal cfg nota frequencia)

/-- C3 witness (spec Scenario E): outcome (6.0, 80.0) recorded once;
the repeat call with (9.0, 90.0) raises the already-finalized error. -/
theorem c3_lancamento_unico_witness :
    ∃ e1, lancarNotaFrequencia configPadrao estadoFresco 6 80 = .ok e1 ∧
      lancarNotaFrequencia configPadrao e1 9 90 = .error .matriculaNaoAtiva ∧
      e1.aluno.historico.filter (fun r => r.codigoCurso == "C") =
        [{ codigoCurso := "C", nota := 6, frequencia := 80, cargaHoraria := 60,
           situacao := derivarSituacaoRepo configPadrao 6 80, semestre := some "P" }] := by
  obtain ⟨e1, hok, hterm, hfilter, hsecond, hfail⟩ :=
    c3_lancamento_unico configPadrao estadoFresco 6 80 rfl rfl
      (by norm_num) (by norm_num) (by norm_num [estadoFresco])
      (by intro r hr; simp [estadoFresco] at hr)
  exact ⟨e1, hok, hsecond 9 90 (by norm_num) (by norm_num), hfilter⟩

/-! ## C2 -/

/-- Course C with no prerequisites, 60 hours. -/
def cursoComum : CursoInfo := { codigo := "C", cargaHoraria := 60, prerequisitos := [] }

/-- Section T1 of course C, period P, Monday 08:00-10:00. -/
def turmaPrimeira : Turma :=
  { id := "T1", periodo := "P", horarios := [("seg", ⟨480, 600⟩)], vagas := 30,
    curso := cursoComum, status := true, matriculas := [] }

/-- Section T2 of the same course C, same period P, Tuesday 08:00-10:00
(no schedule overlap with T1). -/
def turmaSegunda : Turma :=
  { id := "T2", periodo := "P", horarios := [("ter", ⟨480, 600⟩)], vagas := 30,
    curso := cursoComum, status := true, matriculas := [] }

/-- Student A with an empty record. -/
def alunoSemHistorico : Aluno := { matricula := "A", nome := "A", historico := [], cr := 0 }

/-- A store where student A already has a CURSANDO enrollment in T1 and
the per-period cap is 1: attempting T2 satisfies both the per-period cap
violation and the same-course duplicate, and A's one prior row is
exactly what step 6 of `validar_matricula` iterates. -/
def sistemaDuplicado : Sistema :=
  { alunos := [alunoSemHistorico], turmas := [turmaPrimeira, turmaSegunda],
    matriculas := [{ id := 1, alunoMatricula := "A", turmaId := "T1", situacao := .cursando }],
    cfg := { notaMinimaAprovacao := 6, frequenciaMinima := 75, maxTurmasPorAluno := 1 } }

/-- Helper: `validar_matricula` never reports the same-course violation
or the per-period cap violation — its branches return only the other
errors or the `KeyError` crash. -/
theorem validarMatricula_erro_shape (s : Sistema) (am tid : String) (e : Erro)
    (h : validarMatricula s am tid = .error e) :
    (∀ c p, e ≠ .jaMatriculadoNoCurso c p) ∧ e ≠ .limiteDeTurmasAtingido := by
  unfold validarMatricula at h
  dsimp only at h
  repeat' split at h
  all_goals
    first
      | exact Except.noConfusion h
      | (injection h with he; subst he;
         exact ⟨fun c p hc => Erro.noConfusion hc, fun hc => Erro.noConfusion hc⟩)

/-- Helper: `validar_matricula` succeeds only when the student has no
prior enrollment row surviving the join — any such row makes the step-6
`KeyError` fire first. -/
theorem validarMatricula_ok_listar (s : Sistema) (am tid : String)
    (h : validarMatricula s am tid = .ok ()) :
    listarMatriculasPorAluno s am = [] := by
  unfold validarMatricula at h
  dsimp only at h
  repeat' split at h
  all_goals
    first
      | exact Except.noConfusion h
      | assumption

/-- Helper: with no prior row surviving the join there is nothing to
count in any period. -/
theorem listar_vazio_count_zero (s : Sistema) (am periodo : String)
    (h : listarMatriculasPorAluno s am = []) :
    countMatriculasPorAluno s am periodo = 0 := by
  unfold listarMatriculasPorAluno at h
  rw [List.filterMap_eq_nil_iff] at h
  unfold countMatriculasPorAluno
  rw [List.length_eq_zero, List.filter_eq_nil_iff]
  intro r hr
  by_cases ha : r.alunoMatricula == am
  · have hrow := h r (List.mem_filter.mpr ⟨hr, ha⟩)
    cases hbt : buscarTurma s r.turmaId with
    | none => simp [hbt]
    | some t =>
      rw [hbt] at hrow
      simp at hrow
  · simp [ha]

/-- C2: at the failing input — student A holds one prior enrollment row
(T1, period P, CURSANDO), the cap is 1, and A attempts the open
section T2 — the admission attempt crashes with the untyped
`KeyError('turma_periodo')` instead of reporting a typed violation,
although the per-period cap condition of claim step 6 holds there; and
in general the program can never report the same-course violation nor
the per-period cap violation: any state able to trigger either has a
prior row, which crashes `validar_matricula` first. -/
theorem c2_chave_turma_periodo_crash :
    criarMatricula sistemaDuplicado "A" "T2" = .error .chaveTurmaPeriodoAusente ∧
    listarMatriculasPorAluno sistemaDuplicado "A" ≠ [] ∧
    (0 < sistemaDuplicado.cfg.maxTurmasPorAluno ∧
      sistemaDuplicado.cfg.maxTurmasPorAluno ≤
        (countMatriculasPorAluno sistemaDuplicado "A" "P" : ℤ)) ∧
    (∀ s am tid c p, criarMatricula s am tid ≠ .error (.jaMatriculadoNoCurso c p)) ∧
    (∀ s am tid, criarMatricula s am tid ≠ .error .limiteDeTurmasAtingido) := by
  refine ⟨rfl, by decide, by decide, ?_, ?_⟩
  · intro s am tid c p h
    unfold criarMatricula at h
    split at h
    · exact absurd (Except.error.inj h) (fun hc => Erro.noConfusion hc)
    split at h
    · exact absurd (Except.error.inj h) (fun hc => Erro.noConfusion hc)
    split at h
    · exact absurd (Except.error.inj h) (fun hc => Erro.noConfusion hc)
    split at h
    · next e he =>
      have := (validarMatricula_erro_shape s am tid e he).1 c p
      exact this (Except.error.inj h)
    split at h
    · exact absurd (Except.error.inj h) (fun hc => Erro.noConfusion hc)
    · exact Except.noConfusion h
  · intro s am tid h
    unfold criarMatricula at h
    split at h
    · exact absurd (Except.error.inj h) (fun hc => Erro.noConfusion hc)
    split at h
    · exact absurd (Except.error.inj h) (fun hc => Erro.noConfusion hc)
    split at h
    · exact absurd (Except.error.inj h) (fun hc => Erro.noConfusion hc)
    split at h
    · next e he =>
      exact (validarMatricula_erro_shape s am tid e he).2 (Except.error.inj h)
    split at h
    · next u hok hcap =>
      cases u
      rw [listar_vazio_count_zero s am _
        (validarMatricula_ok_listar s am tid hok)] at hcap
      omega
    · exact Except.noConfusion h

/-- C2 witness: the general dead-code conjuncts applied at the failing
input — the crash state reports neither the cap violation nor the
same-course violation. -/
theorem c2_chave_turma_periodo_crash_witness :
    criarMatricula sistemaDuplicado "A" "T2" ≠ .error .limiteDeTurmasAtingido ∧
    criarMatricula sistemaDuplicado "A" "T2" ≠ .error (.jaMatriculadoNoCurso "C" "P") :=
  ⟨c2_chave_turma_periodo_crash.2.2.2.2 sistemaDuplicado "A" "T2",
   c2_chave_turma_periodo_crash.2.2.2.1 sistemaDuplicado "A" "T2" "C" "P"⟩
